import Mathlib

/-!
Verification of the OIDC Authorization-Code-with-PKCE authentication flow of
the bill-pro-max frontend.

The TypeScript modules `src/api/authApi.ts`, `src/hooks/useAuth.ts`,
`src/store/authSlice.ts` and the auth callback page are shallowly embedded as
pure Lean functions.  Browser primitives (the secure random source, the Web
Crypto SHA-256 digest, `fetch` responses, `atob`, `decodeURIComponent`,
`JSON.parse`) are modelled as explicit oracle parameters; browser storage is
explicit state threaded through the functions; network calls and redirects
are recorded in event traces.
-/

namespace BillProMax

/-! ## Browser storage state

`sessionStorage` keys used by the auth flow (authApi.ts) and `localStorage`
keys used by the auth slice (authSlice.ts).  `none` models an absent key. -/

structure SessionStorage where
  pkce_code_verifier : Option String
  oauth_state : Option String
  invitation_token : Option String
deriving DecidableEq, Repr

structure LocalStorage where
  token : Option String
  refreshToken : Option String
  idToken : Option String
  currentBusinessId : Option String
deriving DecidableEq, Repr

/-! ## generateRandomString (authApi.ts lines 39-45)

```ts
function generateRandomString(length = 64): string {
  const array = new Uint8Array(length);
  crypto.getRandomValues(array);
  return Array.from(array, (byte) => byte.toString(36).padStart(2, '0'))
    .join('')
    .substring(0, length);
}
```

`crypto.getRandomValues` is modelled by an oracle `rnd : Nat → Nat` giving
the byte at each index; `Uint8Array` entries are bytes, hence the `% 256`. -/

def base36Digits : List Char := "0123456789abcdefghijklmnopqrstuvwxyz".data

/-- JS `Number.prototype.toString(36)` digit character (for digit values
below 36; out-of-range indices fall back to a digit, which never occurs on
real inputs). -/
def base36Char (n : Nat) : Char := base36Digits.getD n '0'

/-- Embeds `byte.toString(36).padStart(2, '0')` for a byte value `b < 1296`:
a value below 36 renders as one base-36 digit and is left-padded with `'0'`;
a larger byte renders as two base-36 digits. -/
def byteToBase36Padded (b : Nat) : List Char :=
  if b < 36 then ['0', base36Char b]
  else [base36Char (b / 36), base36Char (b % 36)]

def generateRandomString (length : Nat) (rnd : Nat → Nat) : String :=
  let array := (List.range length).map (fun i => rnd i % 256)
  String.mk (((array.map byteToBase36Padded).flatten).take length)

/-! ## generateCodeChallenge (authApi.ts lines 52-60)

```ts
async function generateCodeChallenge(verifier: string): Promise<string> {
  const encoder = new TextEncoder();
  const data = encoder.encode(verifier);
  const digest = await crypto.subtle.digest('SHA-256', data);
  return btoa(String.fromCharCode(...new Uint8Array(digest)))
    .replace(/\+/g, '-')
    .replace(/\//g, '_')
    .replace(/=+$/, '');
}
```

`TextEncoder.encode` is UTF-8 encoding, embedded below; `crypto.subtle.digest`
is a browser primitive and is modelled as an oracle `digest : List Nat →
List Nat` on byte lists; `btoa` is standard base64 over bytes, embedded
below. -/

/-- UTF-8 encoding of one Unicode code point (`TextEncoder` semantics). -/
def utf8EncodeCodePoint (c : Nat) : List Nat :=
  if c < 0x80 then [c]
  else if c < 0x800 then [0xC0 ||| (c >>> 6), 0x80 ||| (c &&& 0x3F)]
  else if c < 0x10000 then
    [0xE0 ||| (c >>> 12), 0x80 ||| ((c >>> 6) &&& 0x3F), 0x80 ||| (c &&& 0x3F)]
  else
    [0xF0 ||| (c >>> 18), 0x80 ||| ((c >>> 12) &&& 0x3F),
     0x80 ||| ((c >>> 6) &&& 0x3F), 0x80 ||| (c &&& 0x3F)]

/-- Embeds `new TextEncoder().encode(s)`: the UTF-8 bytes of `s`. -/
def utf8Bytes (s : String) : List Nat :=
  s.data.flatMap (fun c => utf8EncodeCodePoint c.toNat)

def b64Alphabet : List Char :=
  "ABCDEFGHIJKLMNOPQRSTUVWXYZabcdefghijklmnopqrstuvwxyz0123456789+/".data

def b64Char (n : Nat) : Char := b64Alphabet.getD n 'A'

/-- The non-padding characters of the base64 encoding of a byte list
(`btoa` body; indices are taken mod 256 since `btoa` operates on bytes). -/
def base64Body : List Nat → List Char
  | [] => []
  | [b1] =>
    let x1 := b1 % 256
    [b64Char (x1 >>> 2), b64Char ((x1 &&& 3) <<< 4)]
  | [b1, b2] =>
    let x1 := b1 % 256
    let x2 := b2 % 256
    [b64Char (x1 >>> 2), b64Char (((x1 &&& 3) <<< 4) ||| (x2 >>> 4)),
     b64Char ((x2 &&& 15) <<< 2)]
  | b1 :: b2 :: b3 :: rest =>
    let x1 := b1 % 256
    let x2 := b2 % 256
    let x3 := b3 % 256
    b64Char (x1 >>> 2) :: b64Char (((x1 &&& 3) <<< 4) ||| (x2 >>> 4)) ::
    b64Char (((x2 &&& 15) <<< 2) ||| (x3 >>> 6)) :: b64Char (x3 &&& 63) ::
    base64Body rest

/-- The `'='` padding characters appended by `btoa`, determined by the number of
leftover bytes in the final group. -/
def base64PadChars (leftover : Nat) : List Char :=
  if leftover = 1 then ['=', '=']
  else if leftover = 2 then ['=']
  else []

/-- Embeds `btoa(String.fromCharCode(...bytes))` as a character list. -/
def base64EncodeChars (bs : List Nat) : List Char :=
  base64Body bs ++ base64PadChars (bs.length % 3)

/-- Embeds `.replace(/\+/g, '-')` on a single character. -/
def replacePlus (c : Char) : Char := if c = '+' then '-' else c

/-- Embeds `.replace(/\//g, '_')` on a single character. -/
def replaceSlash (c : Char) : Char := if c = '/' then '_' else c

/-- Embeds `.replace(/=+$/, '')`: remove the trailing run of `'='` characters. -/
def stripTrailingEq (l : List Char) : List Char :=
  ((l.reverse).dropWhile (fun c => c = '=')).reverse

def generateCodeChallenge (digest : List Nat → List Nat) (verifier : String) :
    String :=
  let data := utf8Bytes verifier
  let d := digest data
  String.mk (stripTrailingEq
    (((base64EncodeChars d).map replacePlus).map replaceSlash))

/-- Modelled from the spec: "base64-encodes the digest, then substitutes
`+`→`-`, `/`→`_`, and strips trailing `=` padding (base64url per RFC 7636
§4.2)".  The base64url-without-padding encoding of a byte list, used to state
the refinement half of the challenge-derivation claim. -/
def base64UrlNoPadOfBytes (bs : List Nat) : List Char :=
  stripTrailingEq (((base64EncodeChars bs).map replacePlus).map replaceSlash)

/-! ## JWT decoding and the auth slice (authSlice.ts)

`parseJwt` splits the token on `'.'`, converts the second segment from
base64url to base64, decodes it with `atob`, percent-encodes each byte and
decodes the result with `decodeURIComponent`, then parses the JSON payload.
Every step is wrapped in `try/catch` returning `null` on failure.  The
browser primitives `atob`, `decodeURIComponent` and `JSON.parse` are
modelled as oracles (a `JwtPlatform`) returning `none` where the original
would throw. -/

structure JwtPayload where
  sub : Option String
  preferred_username : Option String
  email : Option String
  name : Option String
  given_name : Option String
  family_name : Option String
  realm_access_roles : Option (List String)
  businessIds : Option (List String)
deriving DecidableEq, Repr

structure User where
  id : String
  username : String
  email : String
  name : String
  firstName : String
  lastName : String
  roles : List String
  businessIds : List String
deriving DecidableEq, Repr

structure JwtPlatform where
  atob : String → Option String
  decodeURIComponent : String → Option String
  jsonParsePayload : String → Option JwtPayload

/-- Embeds `'%' + ('00' + c.charCodeAt(0).toString(16)).slice(-2)` applied to each
character and joined. -/
def percentEncodeChars (s : String) : String :=
  String.mk (s.data.flatMap (fun c =>
    let hex := '0' :: '0' :: Nat.toDigits 16 c.toNat
    '%' :: hex.drop (hex.length - 2)))

/-- Embeds `token.split('.')`: split a character list on every `'.'` (JS string
split with a one-character separator; an empty input yields `[""]`). -/
def splitOnDotAux : List Char → List Char → List (List Char)
  | [], acc => [acc.reverse]
  | c :: rest, acc =>
    if c = '.' then acc.reverse :: splitOnDotAux rest []
    else splitOnDotAux rest (c :: acc)

def jwtSegments (token : String) : List String :=
  (splitOnDotAux token.data []).map String.mk

def parseJwt (p : JwtPlatform) (token : String) : Option JwtPayload :=
  match (jwtSegments token)[1]? with
  | none => none
  | some base64Url =>
    let base64 := String.mk
      ((base64Url.data.map (fun c => if c = '-' then '+' else c)).map
        (fun c => if c = '_' then '/' else c))
    match p.atob base64 with
    | none => none
    | some bin =>
      match p.decodeURIComponent (percentEncodeChars bin) with
      | none => none
      | some jsonPayload => p.jsonParsePayload jsonPayload

/-- The user object built from a decoded payload (`|| ''` defaults). -/
def userOfPayload (payload : JwtPayload) : User where
  id := payload.sub.getD ""
  username := payload.preferred_username.getD ""
  email := payload.email.getD ""
  name := payload.name.getD ""
  firstName := payload.given_name.getD ""
  lastName := payload.family_name.getD ""
  roles := payload.realm_access_roles.getD []
  businessIds := payload.businessIds.getD []

def extractUserFromToken (p : JwtPlatform) (token : String) : Option User :=
  (parseJwt p token).map userOfPayload

structure AuthState where
  user : Option User
  token : Option String
  refreshToken : Option String
  idToken : Option String
  isAuthenticated : Bool
  isLoading : Bool
  error : Option String
  currentBusinessId : Option String
deriving DecidableEq, Repr

/-- The slice defaults (`initialState` literal fields before the spread of
`loadAuthState()`). -/
def emptyAuthState : AuthState where
  user := none
  token := none
  refreshToken := none
  idToken := none
  isAuthenticated := false
  isLoading := false
  error := none
  currentBusinessId := none

/-- Embeds `loadAuthState()` spread over the slice defaults: the auth state at
store creation, derived from `localStorage`.  The `if (token)` truthiness
check means an empty-string token takes the no-token branch. -/
def loadAuthState (p : JwtPlatform) (ls : LocalStorage) : AuthState :=
  match ls.token with
  | some token =>
    if token = "" then { emptyAuthState with currentBusinessId := ls.currentBusinessId }
    else
      let user := extractUserFromToken p token
      { emptyAuthState with
        token := some token
        refreshToken := ls.refreshToken
        idToken := ls.idToken
        user := user
        isAuthenticated := user.isSome
        currentBusinessId := ls.currentBusinessId }
  | none => { emptyAuthState with currentBusinessId := ls.currentBusinessId }

structure CredentialsPayload where
  token : String
  refreshToken : String
  idToken : Option String
deriving DecidableEq, Repr

/-- The `setCredentials` reducer: sets tokens and derived user in state,
persists tokens to `localStorage`.  `if (idToken)` is a truthiness check, so
an absent or empty id token leaves the previous one in place. -/
def setCredentials (p : JwtPlatform) (payload : CredentialsPayload)
    (s : AuthState) (ls : LocalStorage) : AuthState × LocalStorage :=
  let withId :=
    match payload.idToken with
    | some t =>
      if t = "" then (s, ls)
      else ({ s with idToken := some t }, { ls with idToken := some t })
    | none => (s, ls)
  let s1 := withId.1
  let ls1 := withId.2
  ({ s1 with
      token := some payload.token
      refreshToken := some payload.refreshToken
      user := extractUserFromToken p payload.token
      isAuthenticated := true
      error := none },
   { ls1 with token := some payload.token, refreshToken := some payload.refreshToken })

def setLoading (b : Bool) (s : AuthState) : AuthState :=
  { s with isLoading := b }

def setError (e : Option String) (s : AuthState) : AuthState :=
  { s with error := e, isLoading := false }

/-- The `logout` reducer: clears the in-memory auth state, removes the four
durable `localStorage` keys and the three session-scoped keys. -/
def logout (s : AuthState) (st : SessionStorage) (ls : LocalStorage) :
    AuthState × SessionStorage × LocalStorage :=
  ({ s with
      user := none
      token := none
      refreshToken := none
      idToken := none
      isAuthenticated := false
      error := none
      currentBusinessId := none },
   { st with pkce_code_verifier := none, oauth_state := none, invitation_token := none },
   { ls with token := none, refreshToken := none, idToken := none, currentBusinessId := none })

/-! ## Token exchange and callback handling (authApi.ts, useAuth.ts)

Network activity is recorded as a trace of `AuthEvent`s; the outcome of the
single `fetch` to the token endpoint is an `HttpResponse` oracle:
`ok` is `response.ok`, `tokens` is the parsed body on success, and
`errorDescription` is `error.error_description` from the error body
(`none` when the body fails to parse — `.catch(() => ({}))` — or lacks the
field). -/

structure TokenResponse where
  access_token : String
  refresh_token : String
  id_token : Option String
deriving DecidableEq, Repr

structure HttpResponse where
  ok : Bool
  tokens : TokenResponse
  errorDescription : Option String
deriving DecidableEq, Repr

inductive AuthEvent
  | validateState (ok : Bool)
  | tokenExchange (code : String) (verifier : String)
  | syncUser (accessToken : String)
deriving DecidableEq, Repr

inductive ExchangeResult
  | ok (tokens : TokenResponse)
  | error (msg : String)
deriving DecidableEq, Repr

structure ExchangeOutcome where
  result : ExchangeResult
  session : SessionStorage
  calls : List AuthEvent
deriving DecidableEq, Repr

/-- Embeds `exchangeCode(code)` (authApi.ts lines 105-135): the guard
`if (!codeVerifier) throw` is a JS truthiness check, so both an absent key
and a stored empty-string verifier throw before any fetch, leaving the
session storage untouched; otherwise the function POSTs to the token
endpoint, removes the verifier and state keys right after the fetch, and
either returns the parsed tokens or throws with
`error.error_description || 'Token exchange failed'` (again truthiness: an
absent or empty description gives the generic message). -/
def exchangeCode (resp : HttpResponse) (code : String) (st : SessionStorage) :
    ExchangeOutcome :=
  match st.pkce_code_verifier with
  | none =>
    ⟨.error "PKCE code verifier not found. Please try logging in again.", st, []⟩
  | some codeVerifier =>
    if codeVerifier = "" then
      ⟨.error "PKCE code verifier not found. Please try logging in again.", st, []⟩
    else
      let calls := [AuthEvent.tokenExchange code codeVerifier]
      let st2 := { st with pkce_code_verifier := none, oauth_state := none }
      if resp.ok then ⟨.ok resp.tokens, st2, calls⟩
      else
        let msg :=
          match resp.errorDescription with
          | some d => if d = "" then "Token exchange failed" else d
          | none => "Token exchange failed"
        ⟨.error msg, st2, calls⟩

/-- Embeds `validateOAuthState(returnedState)` (authApi.ts lines 187-190):
`sessionStorage.getItem('oauth_state') === returnedState` (a stored `null`
never equals a string). -/
def validateOAuthState (returnedState : String) (st : SessionStorage) : Bool :=
  st.oauth_state == some returnedState

/-- Embeds `getStoredInvitationToken()` (authApi.ts lines 196-200): reads the
session-scoped invitation key and removes it. -/
def getStoredInvitationToken (st : SessionStorage) : Option String × SessionStorage :=
  (st.invitation_token, { st with invitation_token := none })

/-- The object `handleCallback` resolves with: `invitationToken = none`
models the field being absent (failure path), `some v` models the field
being present with value `v` (`v = none` is JS `null`). -/
structure CallbackResult where
  success : Bool
  invitationToken : Option (Option String)
deriving DecidableEq, Repr

structure CallbackOutcome where
  result : CallbackResult
  auth : AuthState
  session : SessionStorage
  store : LocalStorage
  trace : List AuthEvent
deriving DecidableEq, Repr

/-- Embeds `handleCallback(code, state)` (useAuth.ts lines 40-83): dispatches
`setLoading(true)` and `setError(null)`, validates the OAuth state (throwing
`'Invalid OAuth state. Please try logging in again.'` on mismatch before any
network call), exchanges the code, stores credentials, fires the best-effort
`/auth/sync` POST (its failure is swallowed, so only the event is recorded),
reads-and-clears the invitation token, and resolves `{ success: true,
invitationToken }`; any thrown error is caught, dispatched via `setError`,
and the handler resolves `{ success: false }`; `setLoading(false)` runs in
the `finally` block on every path. -/
def handleCallback (p : JwtPlatform) (resp : HttpResponse) (code returnedState : String)
    (auth : AuthState) (st : SessionStorage) (ls : LocalStorage) : CallbackOutcome :=
  let auth1 := setError none (setLoading true auth)
  if validateOAuthState returnedState st then
    let ex := exchangeCode resp code st
    match ex.result with
    | .ok tokens =>
      let credAndStore :=
        setCredentials p ⟨tokens.access_token, tokens.refresh_token, tokens.id_token⟩ auth1 ls
      let invAndSession := getStoredInvitationToken ex.session
      ⟨⟨true, some invAndSession.1⟩,
       setLoading false credAndStore.1,
       invAndSession.2,
       credAndStore.2,
       AuthEvent.validateState true :: ex.calls ++ [AuthEvent.syncUser tokens.access_token]⟩
    | .error msg =>
      ⟨⟨false, none⟩,
       setLoading false (setError (some msg) auth1),
       ex.session, ls,
       AuthEvent.validateState true :: ex.calls⟩
  else
    ⟨⟨false, none⟩,
     setLoading false (setError (some "Invalid OAuth state. Please try logging in again.") auth1),
     st, ls,
     [AuthEvent.validateState false]⟩

/-! ## useAuth logout (useAuth.ts lines 88-92) -/

inductive LogoutStep
  | clearLocalState
  | redirectProviderLogout (idTokenHint : Option String)
deriving DecidableEq, Repr

/-- The hook's `logout`: dispatches the slice `logout` action first, then
redirects to the provider logout endpoint with the remembered id token as
hint.  The step list records that ordering. -/
def useAuthLogout (auth : AuthState) (st : SessionStorage) (ls : LocalStorage) :
    AuthState × SessionStorage × LocalStorage × List LogoutStep :=
  let currentIdToken := auth.idToken
  let cleared := logout auth st ls
  (cleared.1, cleared.2.1, cleared.2.2,
   [LogoutStep.clearLocalState, LogoutStep.redirectProviderLogout currentIdToken])

/-! ## initiateLogin (authApi.ts lines 68-97) -/

structure LoginOptions where
  registrationHint : Option Bool
  invitationToken : Option String
deriving DecidableEq, Repr

/-- The data of the authorization redirect the browser is sent to (the
endpoint choice and the PKCE/state query parameters). -/
structure AuthRedirect where
  endpoint : String
  state : String
  codeChallenge : String
deriving DecidableEq, Repr

/-- Embeds `initiateLogin(options?)`: generates a fresh verifier (64 chars) and
state (32 chars) from the random-byte oracles, stores both in session
storage, stores the invitation token when one is supplied
(`if (options?.invitationToken)` — JS truthiness, so an empty string is not
stored), and redirects to the `registrations` or `auth` endpoint. -/
def initiateLogin (digest : List Nat → List Nat) (rndVerifier rndState : Nat → Nat)
    (options : Option LoginOptions) (st : SessionStorage) :
    SessionStorage × AuthRedirect :=
  let codeVerifier := generateRandomString 64 rndVerifier
  let codeChallenge := generateCodeChallenge digest codeVerifier
  let state := generateRandomString 32 rndState
  let st1 := { st with pkce_code_verifier := some codeVerifier, oauth_state := some state }
  let st2 :=
    match options.bind (fun o => o.invitationToken) with
    | some t => if t = "" then st1 else { st1 with invitation_token := some t }
    | none => st1
  let registrations := (options.bind (fun o => o.registrationHint)).getD false
  (st2, ⟨if registrations then "registrations" else "auth", state, codeChallenge⟩)

/-! ## AuthCallbackPage effect (the callback page component)

The page reads `code`, `state` and `error` from the URL search parameters
(`searchParams.get` yields `null` for an absent parameter), bails out to the
login page on an error parameter or missing code/state, skips codes already
recorded in the module-level `processedCodes` set, and otherwise records the
code and runs `handleCallback`, navigating according to the result. -/

def truthy (o : Option String) : Bool :=
  match o with
  | some s => s != ""
  | none => false

structure CallbackParams where
  code : Option String
  state : Option String
  error : Option String
deriving DecidableEq, Repr

inductive NavTarget
  | login
  | home
  | invitationPage (token : String)
  | stay
deriving DecidableEq, Repr

structure PageOutcome where
  processed : List String
  auth : AuthState
  session : SessionStorage
  store : LocalStorage
  trace : List AuthEvent
  nav : NavTarget
deriving DecidableEq, Repr

def authCallbackEffect (p : JwtPlatform) (resp : HttpResponse)
    (params : CallbackParams) (processed : List String)
    (auth : AuthState) (st : SessionStorage) (ls : LocalStorage) : PageOutcome :=
  if truthy params.error then ⟨processed, auth, st, ls, [], .login⟩
  else if !truthy params.code || !truthy params.state then
    ⟨processed, auth, st, ls, [], .login⟩
  else
    let code := params.code.getD ""
    let state := params.state.getD ""
    if processed.contains code then ⟨processed, auth, st, ls, [], .stay⟩
    else
      let processed2 := code :: processed
      let out := handleCallback p resp code state auth st ls
      let nav :=
        if out.result.success then
          match out.result.invitationToken with
          | some (some t) => if t = "" then NavTarget.home else NavTarget.invitationPage t
          | _ => NavTarget.home
        else NavTarget.login
      ⟨processed2, out.auth, out.session, out.store, out.trace, nav⟩

/-- Count of token-exchange network calls in a trace. -/
def countTokenExchange (trace : List AuthEvent) : Nat :=
  trace.countP (fun e =>
    match e with
    | .tokenExchange _ _ => true
    | _ => false)

/-! ## Helper lemmas -/

lemma length_byteToBase36Padded (b : Nat) : (byteToBase36Padded b).length = 2 := by
  unfold byteToBase36Padded
  split <;> rfl

lemma base36Char_mem (n : Nat) : base36Char n ∈ base36Digits := by
  unfold base36Char
  rcases h : base36Digits[n]? with _ | c
  · simp [List.getD, h]
    decide
  · have := List.getElem?_mem h
    simpa [List.getD, h] using this

lemma mem_byteToBase36Padded {c : Char} {b : Nat} (h : c ∈ byteToBase36Padded b) :
    c ∈ base36Digits := by
  unfold byteToBase36Padded at h
  split at h <;> simp only [List.mem_cons, List.mem_singleton, List.not_mem_nil] at h <;>
    rcases h with h | h | h <;>
      first
        | (rw [h]; decide)
        | (rw [h]; exact base36Char_mem _)
        | cases h

lemma flatten_map_byteToBase36_length (l : List Nat) :
    ((l.map byteToBase36Padded).flatten).length = 2 * l.length := by
  induction l with
  | nil => simp
  | cons a t ih =>
    simp [List.flatten, length_byteToBase36Padded, ih]
    ring

lemma generateRandomString_length (length : Nat) (rnd : Nat → Nat) :
    (generateRandomString length rnd).length = length := by
  have key : ((((List.range length).map (fun i => rnd i % 256)).map
      byteToBase36Padded).flatten).length = 2 * length := by
    rw [flatten_map_byteToBase36_length]
    simp
  show ((((List.range length).map (fun i => rnd i % 256)).map
      byteToBase36Padded).flatten.take length).length = length
  rw [List.length_take, key]
  omega

lemma generateRandomString_ne_empty (length : Nat) (rnd : Nat → Nat) (h : length ≠ 0) :
    generateRandomString length rnd ≠ "" := by
  intro hc
  have hl := generateRandomString_length length rnd
  rw [hc] at hl
  simp at hl
  exact h hl.symm

/-! ## C10: exchangeCode without a stored verifier -/

/-- C10: if no PKCE verifier is in session storage, `exchangeCode` throws
`'PKCE code verifier not found. Please try logging in again.'`, issues no
network request, and leaves the whole session storage — in particular the
stored OAuth state — unchanged. -/
theorem C10_exchangeCode_missing_verifier
    (resp : HttpResponse) (code : String) (st : SessionStorage)
    (h : st.pkce_code_verifier = none) :
    (exchangeCode resp code st).result =
      .error "PKCE code verifier not found. Please try logging in again." ∧
    (exchangeCode resp code st).calls = [] ∧
    (exchangeCode resp code st).session = st ∧
    (exchangeCode resp code st).session.oauth_state = st.oauth_state := by
  simp [exchangeCode, h]

theorem C10_witness :
    (exchangeCode ⟨true, ⟨"a", "r", none⟩, none⟩ "c" ⟨none, some "S1", none⟩).result =
      .error "PKCE code verifier not found. Please try logging in again." ∧
    (exchangeCode ⟨true, ⟨"a", "r", none⟩, none⟩ "c" ⟨none, some "S1", none⟩).calls = [] ∧
    (exchangeCode ⟨true, ⟨"a", "r", none⟩, none⟩ "c" ⟨none, some "S1", none⟩).session =
      ⟨none, some "S1", none⟩ ∧
    (exchangeCode ⟨true, ⟨"a", "r", none⟩, none⟩ "c" ⟨none, some "S1", none⟩).session.oauth_state =
      (SessionStorage.mk none (some "S1") none).oauth_state :=
  C10_exchangeCode_missing_verifier ⟨true, ⟨"a", "r", none⟩, none⟩ "c" ⟨none, some "S1", none⟩ rfl

/-! ## C2: exchangeCode clears verifier and state after the attempt -/

/-- C2: every `exchangeCode` call that finds a stored truthy verifier (JS
`if (!codeVerifier)`: the verifier must be present and non-empty for the
POST to be issued at all) issues the POST (exactly one token-exchange call
with that verifier) and removes both the PKCE verifier and the OAuth state
from session storage, whether the response is successful or not. -/
theorem C2_exchangeCode_clears_verifier_and_state
    (resp : HttpResponse) (code : String) (st : SessionStorage) (v : String)
    (h : st.pkce_code_verifier = some v) (hne : v ≠ "") :
    (exchangeCode resp code st).calls = [AuthEvent.tokenExchange code v] ∧
    (exchangeCode resp code st).session.pkce_code_verifier = none ∧
    (exchangeCode resp code st).session.oauth_state = none := by
  unfold exchangeCode
  rw [h]
  cases resp.ok <;> simp [hne]

theorem C2_witness :
    (exchangeCode ⟨false, ⟨"", "", none⟩, some "boom"⟩ "abc" ⟨some "ver", some "S1", none⟩).calls =
      [AuthEvent.tokenExchange "abc" "ver"] ∧
    (exchangeCode ⟨false, ⟨"", "", none⟩, some "boom"⟩ "abc"
      ⟨some "ver", some "S1", none⟩).session.pkce_code_verifier = none ∧
    (exchangeCode ⟨false, ⟨"", "", none⟩, some "boom"⟩ "abc"
      ⟨some "ver", some "S1", none⟩).session.oauth_state = none :=
  C2_exchangeCode_clears_verifier_and_state ⟨false, ⟨"", "", none⟩, some "boom"⟩ "abc"
    ⟨some "ver", some "S1", none⟩ "ver" rfl (by decide)

/-! ## C7: logout clears all auth state before the provider redirect -/

/-- C7: after the hook's `logout`, every durable storage key (access token,
refresh token, id token, current business id) and every session-scoped key
(PKCE verifier, OAuth state, invitation token) is absent, the in-memory
state has `user = null` and `isAuthenticated = false`, and the local
clearing step precedes the provider logout redirect in the action sequence,
unconditionally in the pre-logout state. -/
theorem C7_logout_clears_all_state (auth : AuthState) (st : SessionStorage) (ls : LocalStorage) :
    (useAuthLogout auth st ls).2.2.1 = LocalStorage.mk none none none none ∧
    (useAuthLogout auth st ls).2.1 = SessionStorage.mk none none none ∧
    (useAuthLogout auth st ls).1.user = none ∧
    (useAuthLogout auth st ls).1.isAuthenticated = false ∧
    (useAuthLogout auth st ls).2.2.2 =
      [LogoutStep.clearLocalState, LogoutStep.redirectProviderLogout auth.idToken] :=
  ⟨rfl, rfl, rfl, rfl, rfl⟩

/-! ## C4: shape of generated random strings -/

/-- C4 as stated is false: byte value 35 renders as the base-36 digit `'z'`,
outside the claimed alphabet `[0-9a-v]`.  With requested length 2 and a
random source producing byte 35, the verifier is `"0z"`. -/
theorem C4_counterexample :
    ¬ ((generateRandomString 2 (fun _ => 35)).length = 2 ∧
       ∀ c ∈ (generateRandomString 2 (fun _ => 35)).data,
         c ∈ "0123456789abcdefghijklmnopqrstuv".data) := by
  decide

/-- C4 (amended): for every requested length and random byte source, the
generated string has exactly the requested length and every character is a
base-36 digit `[0-9a-z]`. -/
theorem C4_generateRandomString_shape (length : Nat) (rnd : Nat → Nat) :
    (generateRandomString length rnd).length = length ∧
    ∀ c ∈ (generateRandomString length rnd).data, c ∈ base36Digits := by
  constructor
  · exact generateRandomString_length length rnd
  · intro c hc
    have hc1 : c ∈ (((List.range length).map (fun i => rnd i % 256)).map
        byteToBase36Padded).flatten.take length := hc
    have hc2 := List.take_subset _ _ hc1
    rcases List.mem_flatten.mp hc2 with ⟨l, hl, hcl⟩
    rcases List.mem_map.mp hl with ⟨b, _, rfl⟩
    exact mem_byteToBase36Padded hcl

theorem C4_witness :
    (generateRandomString 8 (fun i => i * 40)).length = 8 ∧
    '0' ∈ base36Digits :=
  ⟨(C4_generateRandomString_shape 8 (fun i => i * 40)).1,
   (C4_generateRandomString_shape 8 (fun i => i * 40)).2 '0' (by decide)⟩

/-! ## C1: state validation gates the token exchange -/

lemma handleCallback_trace_eq (p : JwtPlatform) (resp : HttpResponse) (code stt : String)
    (auth : AuthState) (st : SessionStorage) (ls : LocalStorage) :
    (handleCallback p resp code stt auth st ls).trace =
      if st.oauth_state = some stt then
        match st.pkce_code_verifier with
        | none => [AuthEvent.validateState true]
        | some v =>
          if v = "" then [AuthEvent.validateState true]
          else if resp.ok then
            [AuthEvent.validateState true, AuthEvent.tokenExchange code v,
             AuthEvent.syncUser resp.tokens.access_token]
          else
            [AuthEvent.validateState true, AuthEvent.tokenExchange code v]
      else [AuthEvent.validateState false] := by
  unfold handleCallback validateOAuthState exchangeCode
  by_cases h : st.oauth_state = some stt
  · cases hv : st.pkce_code_verifier with
    | none => cases hok : resp.ok <;> simp [h, hv, hok]
    | some v =>
      by_cases hve : v = "" <;> cases hok : resp.ok <;> simp [h, hv, hok, hve]
  · simp [h]

lemma handleCallback_mismatch_eq (p : JwtPlatform) (resp : HttpResponse) (code stt : String)
    (auth : AuthState) (st : SessionStorage) (ls : LocalStorage)
    (h : st.oauth_state ≠ some stt) :
    handleCallback p resp code stt auth st ls =
      ⟨⟨false, none⟩,
       setLoading false (setError (some "Invalid OAuth state. Please try logging in again.")
         (setError none (setLoading true auth))),
       st, ls, [AuthEvent.validateState false]⟩ := by
  unfold handleCallback validateOAuthState
  simp [h]

/-- C1: when the callback's `state` equals the stored OAuth state the handler
proceeds to the token exchange (with a stored truthy verifier — JS
`if (!codeVerifier)` — the exchange POST is in the trace); when it differs
or no state is stored, the handler fails with the `'Invalid OAuth state'`
error and the trace contains no token-exchange call; and any token-exchange
call in the trace is preceded by a completed, successful state validation
(the trace starts with it). -/
theorem C1_state_validation_gates_exchange
    (p : JwtPlatform) (resp : HttpResponse) (code stt : String)
    (auth : AuthState) (st : SessionStorage) (ls : LocalStorage) :
    (st.oauth_state = some stt →
      ∀ v, st.pkce_code_verifier = some v → v ≠ "" →
        AuthEvent.tokenExchange code v ∈ (handleCallback p resp code stt auth st ls).trace) ∧
    (st.oauth_state ≠ some stt →
      (handleCallback p resp code stt auth st ls).result.success = false ∧
      (handleCallback p resp code stt auth st ls).auth.error =
        some "Invalid OAuth state. Please try logging in again." ∧
      ∀ c v, AuthEvent.tokenExchange c v ∉ (handleCallback p resp code stt auth st ls).trace) ∧
    (∀ c v, AuthEvent.tokenExchange c v ∈ (handleCallback p resp code stt auth st ls).trace →
      ∃ rest, (handleCallback p resp code stt auth st ls).trace =
        AuthEvent.validateState true :: rest) := by
  refine ⟨?_, ?_, ?_⟩
  · intro h v hv hvne
    rw [handleCallback_trace_eq]
    cases hok : resp.ok <;> simp [h, hv, hvne, hok]
  · intro h
    rw [handleCallback_mismatch_eq p resp code stt auth st ls h]
    simp [setLoading, setError]
  · intro c v hmem
    rw [handleCallback_trace_eq] at hmem ⊢
    by_cases h : st.oauth_state = some stt
    · cases hv : st.pkce_code_verifier with
      | none => simp [h, hv] at hmem ⊢
      | some w =>
        by_cases hwe : w = ""
        · simp [h, hv, hwe] at hmem ⊢
        · cases hok : resp.ok <;> simp [h, hv, hwe, hok]
    · simp [h] at hmem

theorem C1_witness :
    (AuthEvent.tokenExchange "abc123" "ver" ∈
      (handleCallback ⟨fun _ => none, fun _ => none, fun _ => none⟩
        ⟨true, ⟨"acc", "ref", none⟩, none⟩ "abc123" "S1" emptyAuthState
        ⟨some "ver", some "S1", none⟩ ⟨none, none, none, none⟩).trace) ∧
    ((handleCallback ⟨fun _ => none, fun _ => none, fun _ => none⟩
        ⟨true, ⟨"acc", "ref", none⟩, none⟩ "abc123" "S2" emptyAuthState
        ⟨some "ver", some "S1", none⟩ ⟨none, none, none, none⟩).result.success = false) :=
  ⟨(C1_state_validation_gates_exchange _ _ "abc123" "S1" emptyAuthState
      ⟨some "ver", some "S1", none⟩ _).1 rfl "ver" rfl (by decide),
   ((C1_state_validation_gates_exchange _ _ "abc123" "S2" emptyAuthState
      ⟨some "ver", some "S1", none⟩ _).2.1 (by decide)).1⟩

/-! ## C6: provider error surfaces error_description -/

/-- C6: on a non-successful HTTP response the handler resolves with
`success = false` and surfaces the provider's `error_description` as the
error message when the error body carries a non-empty one, and the generic
`'Token exchange failed'` message when the body lacks the field (or failed
to parse, or carries an empty description — JS `||` truthiness).  The
exchange attempt presupposes a truthy stored verifier. -/
theorem C6_exchange_error_message
    (p : JwtPlatform) (resp : HttpResponse) (code stt : String)
    (auth : AuthState) (st : SessionStorage) (ls : LocalStorage) (v : String)
    (hstate : st.oauth_state = some stt)
    (hver : st.pkce_code_verifier = some v) (hvne : v ≠ "")
    (hok : resp.ok = false) :
    (handleCallback p resp code stt auth st ls).result.success = false ∧
    (∀ d, resp.errorDescription = some d → d ≠ "" →
      (handleCallback p resp code stt auth st ls).auth.error = some d) ∧
    (resp.errorDescription = none →
      (handleCallback p resp code stt auth st ls).auth.error = some "Token exchange failed") ∧
    (resp.errorDescription = some "" →
      (handleCallback p resp code stt auth st ls).auth.error = some "Token exchange failed") := by
  unfold handleCallback validateOAuthState exchangeCode
  refine ⟨?_, ?_, ?_, ?_⟩
  · simp [hstate, hver, hvne, hok]
  · intro d hd hne
    simp [hstate, hver, hvne, hok, hd, hne, setError, setLoading]
  · intro hd
    simp [hstate, hver, hvne, hok, hd, setError, setLoading]
  · intro hd
    simp [hstate, hver, hvne, hok, hd, setError, setLoading]

theorem C6_witness :
    ((handleCallback ⟨fun _ => none, fun _ => none, fun _ => none⟩
        ⟨false, ⟨"", "", none⟩, some "invalid_grant"⟩ "abc123" "S1" emptyAuthState
        ⟨some "ver", some "S1", none⟩ ⟨none, none, none, none⟩).result.success = false) ∧
    ((handleCallback ⟨fun _ => none, fun _ => none, fun _ => none⟩
        ⟨false, ⟨"", "", none⟩, some "invalid_grant"⟩ "abc123" "S1" emptyAuthState
        ⟨some "ver", some "S1", none⟩ ⟨none, none, none, none⟩).auth.error =
      some "invalid_grant") :=
  ⟨(C6_exchange_error_message _ _ "abc123" "S1" emptyAuthState
      ⟨some "ver", some "S1", none⟩ _ "ver" rfl rfl (by decide) rfl).1,
   (C6_exchange_error_message _ _ "abc123" "S1" emptyAuthState
      ⟨some "ver", some "S1", none⟩ _ "ver" rfl rfl (by decide) rfl).2.1
     "invalid_grant" rfl (by decide)⟩

/-! ## C9: undecodable JWTs and the isAuthenticated/user invariant -/

/-- C9: for a token that does not decode as a JWT, `extractUserFromToken`
returns `null` (never throws); loading the auth state from durable storage
holding such a token yields `isAuthenticated = false`; the invariant
"`isAuthenticated` implies a non-null `user`" holds after `loadAuthState`
for every storage content; but the `setCredentials` reducer applied to the
same token sets `isAuthenticated = true` with `user = null`, breaking the
invariant. -/
theorem C9_undecodable_token_invariant
    (p : JwtPlatform) (token : String) (h : parseJwt p token = none) :
    extractUserFromToken p token = none ∧
    (∀ ls : LocalStorage, ls.token = some token →
      (loadAuthState p ls).isAuthenticated = false) ∧
    (∀ ls : LocalStorage, (loadAuthState p ls).isAuthenticated = true →
      (loadAuthState p ls).user ≠ none) ∧
    (∀ (s : AuthState) (ls : LocalStorage) (rt : String) (idt : Option String),
      (setCredentials p ⟨token, rt, idt⟩ s ls).1.isAuthenticated = true ∧
      (setCredentials p ⟨token, rt, idt⟩ s ls).1.user = none) := by
  have hx : extractUserFromToken p token = none := by
    simp [extractUserFromToken, h]
  refine ⟨hx, ?_, ?_, ?_⟩
  · intro ls hls
    unfold loadAuthState
    rw [hls]
    by_cases ht : token = ""
    · simp [ht, emptyAuthState]
    · simp [ht, hx, emptyAuthState]
  · intro ls hauth
    unfold loadAuthState at hauth ⊢
    cases hls : ls.token with
    | none => simp [hls, emptyAuthState] at hauth
    | some tk =>
      rw [hls] at hauth
      by_cases ht : tk = ""
      · simp [ht, emptyAuthState] at hauth
      · simp [ht] at hauth ⊢
        rcases Option.isSome_iff_exists.mp hauth with ⟨u, hu⟩
        simp [hu]
  · intro s ls rt idt
    refine ⟨rfl, ?_⟩
    show extractUserFromToken p token = none
    exact hx

theorem C9_witness :
    extractUserFromToken ⟨fun _ => none, fun _ => none, fun _ => none⟩ "not-a-jwt" = none ∧
    (loadAuthState ⟨fun _ => none, fun _ => none, fun _ => none⟩
      ⟨some "not-a-jwt", none, none, none⟩).isAuthenticated = false ∧
    (setCredentials ⟨fun _ => none, fun _ => none, fun _ => none⟩ ⟨"not-a-jwt", "r", none⟩
      emptyAuthState ⟨none, none, none, none⟩).1.isAuthenticated = true ∧
    (setCredentials ⟨fun _ => none, fun _ => none, fun _ => none⟩ ⟨"not-a-jwt", "r", none⟩
      emptyAuthState ⟨none, none, none, none⟩).1.user = none := by
  have h := C9_undecodable_token_invariant
    ⟨fun _ => none, fun _ => none, fun _ => none⟩ "not-a-jwt" (by decide)
  exact ⟨h.1, h.2.1 ⟨some "not-a-jwt", none, none, none⟩ rfl,
    (h.2.2.2 emptyAuthState ⟨none, none, none, none⟩ "r" none).1,
    (h.2.2.2 emptyAuthState ⟨none, none, none, none⟩ "r" none).2⟩

/-! ## C3: duplicate callback deliveries cause one token exchange -/

/-- C3: running the callback page effect twice with the same truthy `code`
and `state` parameters (the strict-mode double-mount scenario, starting from
an empty processed-codes set with a matching stored state and truthy
verifier) issues exactly one token-exchange network call: the first run
performs it and records the code, the second run finds the code in the
process-lifetime set and skips, leaving the set unchanged and issuing no
network call. -/
theorem C3_duplicate_code_single_exchange
    (p : JwtPlatform) (resp resp2 : HttpResponse) (c s v : String)
    (auth : AuthState) (st : SessionStorage) (ls : LocalStorage)
    (hc : c ≠ "") (hs : s ≠ "")
    (hstate : st.oauth_state = some s) (hver : st.pkce_code_verifier = some v)
    (hvne : v ≠ "") :
    countTokenExchange
      (authCallbackEffect p resp ⟨some c, some s, none⟩ [] auth st ls).trace = 1 ∧
    countTokenExchange
      (authCallbackEffect p resp2 ⟨some c, some s, none⟩
        (authCallbackEffect p resp ⟨some c, some s, none⟩ [] auth st ls).processed
        (authCallbackEffect p resp ⟨some c, some s, none⟩ [] auth st ls).auth
        (authCallbackEffect p resp ⟨some c, some s, none⟩ [] auth st ls).session
        (authCallbackEffect p resp ⟨some c, some s, none⟩ [] auth st ls).store).trace = 0 ∧
    (authCallbackEffect p resp2 ⟨some c, some s, none⟩
        (authCallbackEffect p resp ⟨some c, some s, none⟩ [] auth st ls).processed
        (authCallbackEffect p resp ⟨some c, some s, none⟩ [] auth st ls).auth
        (authCallbackEffect p resp ⟨some c, some s, none⟩ [] auth st ls).session
        (authCallbackEffect p resp ⟨some c, some s, none⟩ [] auth st ls).store).processed =
      (authCallbackEffect p resp ⟨some c, some s, none⟩ [] auth st ls).processed := by
  have hproc : (authCallbackEffect p resp ⟨some c, some s, none⟩ [] auth st ls).processed
      = [c] := by
    simp [authCallbackEffect, truthy, hc, hs]
  have htrace : (authCallbackEffect p resp ⟨some c, some s, none⟩ [] auth st ls).trace
      = (handleCallback p resp c s auth st ls).trace := by
    simp [authCallbackEffect, truthy, hc, hs]
  have hcount1 : countTokenExchange (handleCallback p resp c s auth st ls).trace = 1 := by
    rw [handleCallback_trace_eq]
    cases hok : resp.ok <;> simp [hstate, hver, hvne, hok, countTokenExchange]
  have hskip : ∀ (a2 : AuthState) (st2 : SessionStorage) (ls2 : LocalStorage),
      authCallbackEffect p resp2 ⟨some c, some s, none⟩ [c] a2 st2 ls2 =
        ⟨[c], a2, st2, ls2, [], NavTarget.stay⟩ := by
    intro a2 st2 ls2
    simp [authCallbackEffect, truthy, hc, hs]
  refine ⟨?_, ?_, ?_⟩
  · rw [htrace]
    exact hcount1
  · rw [hproc, hskip]
    simp [countTokenExchange]
  · rw [hproc, hskip]

theorem C3_witness :
    countTokenExchange
      (authCallbackEffect ⟨fun _ => none, fun _ => none, fun _ => none⟩
        ⟨true, ⟨"acc", "ref", none⟩, none⟩ ⟨some "abc", some "S1", none⟩ []
        emptyAuthState ⟨some "ver", some "S1", none⟩ ⟨none, none, none, none⟩).trace = 1 ∧
    countTokenExchange
      (authCallbackEffect ⟨fun _ => none, fun _ => none, fun _ => none⟩
        ⟨true, ⟨"acc", "ref", none⟩, none⟩ ⟨some "abc", some "S1", none⟩
        (authCallbackEffect ⟨fun _ => none, fun _ => none, fun _ => none⟩
          ⟨true, ⟨"acc", "ref", none⟩, none⟩ ⟨some "abc", some "S1", none⟩ []
          emptyAuthState ⟨some "ver", some "S1", none⟩ ⟨none, none, none, none⟩).processed
        (authCallbackEffect ⟨fun _ => none, fun _ => none, fun _ => none⟩
          ⟨true, ⟨"acc", "ref", none⟩, none⟩ ⟨some "abc", some "S1", none⟩ []
          emptyAuthState ⟨some "ver", some "S1", none⟩ ⟨none, none, none, none⟩).auth
        (authCallbackEffect ⟨fun _ => none, fun _ => none, fun _ => none⟩
          ⟨true, ⟨"acc", "ref", none⟩, none⟩ ⟨some "abc", some "S1", none⟩ []
          emptyAuthState ⟨some "ver", some "S1", none⟩ ⟨none, none, none, none⟩).session
        (authCallbackEffect ⟨fun _ => none, fun _ => none, fun _ => none⟩
          ⟨true, ⟨"acc", "ref", none⟩, none⟩ ⟨some "abc", some "S1", none⟩ []
          emptyAuthState ⟨some "ver", some "S1", none⟩ ⟨none, none, none, none⟩).store).trace = 0 :=
  ⟨(C3_duplicate_code_single_exchange ⟨fun _ => none, fun _ => none, fun _ => none⟩
      ⟨true, ⟨"acc", "ref", none⟩, none⟩ ⟨true, ⟨"acc", "ref", none⟩, none⟩
      "abc" "S1" "ver" emptyAuthState ⟨some "ver", some "S1", none⟩ ⟨none, none, none, none⟩
      (by decide) (by decide) rfl rfl (by decide)).1,
   (C3_duplicate_code_single_exchange ⟨fun _ => none, fun _ => none, fun _ => none⟩
      ⟨true, ⟨"acc", "ref", none⟩, none⟩ ⟨true, ⟨"acc", "ref", none⟩, none⟩
      "abc" "S1" "ver" emptyAuthState ⟨some "ver", some "S1", none⟩ ⟨none, none, none, none⟩
      (by decide) (by decide) rfl rfl (by decide)).2.1⟩

/-! ## C8: invitation token carry-through -/

/-- C8: initiating login with a (non-empty — JS truthiness) invitation token
`t` and completing the matching callback successfully yields a result whose
`invitationToken` is `t` with the session-scoped invitation key cleared;
initiating login without one (and with no residual stored token) yields a
successful result whose `invitationToken` is `null`; and a failed callback
(state mismatch) leaves the stored invitation token in place, so the token
is read and cleared only after a successful callback. -/
theorem C8_invitation_carry_roundtrip
    (digest : List Nat → List Nat) (rndV rndS : Nat → Nat)
    (p : JwtPlatform) (resp : HttpResponse) (code : String)
    (auth : AuthState) (st : SessionStorage) (ls : LocalStorage) (t : String) :
    (t ≠ "" → resp.ok = true →
      (handleCallback p resp code
        (initiateLogin digest rndV rndS (some ⟨none, some t⟩) st).2.state auth
        (initiateLogin digest rndV rndS (some ⟨none, some t⟩) st).1 ls).result.success = true ∧
      (handleCallback p resp code
        (initiateLogin digest rndV rndS (some ⟨none, some t⟩) st).2.state auth
        (initiateLogin digest rndV rndS (some ⟨none, some t⟩) st).1 ls).result.invitationToken =
        some (some t) ∧
      (handleCallback p resp code
        (initiateLogin digest rndV rndS (some ⟨none, some t⟩) st).2.state auth
        (initiateLogin digest rndV rndS (some ⟨none, some t⟩) st).1 ls).session.invitation_token =
        none) ∧
    (st.invitation_token = none → resp.ok = true →
      (handleCallback p resp code
        (initiateLogin digest rndV rndS none st).2.state auth
        (initiateLogin digest rndV rndS none st).1 ls).result.success = true ∧
      (handleCallback p resp code
        (initiateLogin digest rndV rndS none st).2.state auth
        (initiateLogin digest rndV rndS none st).1 ls).result.invitationToken = some none) ∧
    (t ≠ "" → ∀ s', s' ≠ (initiateLogin digest rndV rndS (some ⟨none, some t⟩) st).2.state →
      (handleCallback p resp code s' auth
        (initiateLogin digest rndV rndS (some ⟨none, some t⟩) st).1 ls).result.success = false ∧
      (handleCallback p resp code s' auth
        (initiateLogin digest rndV rndS (some ⟨none, some t⟩) st).1 ls).session.invitation_token =
        some t) := by
  have hV : generateRandomString 64 rndV ≠ "" :=
    generateRandomString_ne_empty 64 rndV (by decide)
  refine ⟨?_, ?_, ?_⟩
  · intro ht hok
    simp [initiateLogin, ht, handleCallback, validateOAuthState, exchangeCode, hV, hok,
      getStoredInvitationToken]
  · intro hinv hok
    simp [initiateLogin, hinv, handleCallback, validateOAuthState, exchangeCode, hV, hok,
      getStoredInvitationToken]
  · intro ht s' hs'
    have hne : ¬ (generateRandomString 32 rndS = s') := fun hcontra => hs' (by
      simp [initiateLogin, ht, hcontra])
    simp [initiateLogin, ht, handleCallback, validateOAuthState, hne]

theorem C8_witness :
    ((handleCallback ⟨fun _ => none, fun _ => none, fun _ => none⟩
        ⟨true, ⟨"acc", "ref", none⟩, none⟩ "abc"
        (initiateLogin (fun _ => []) (fun _ => 0) (fun _ => 7)
          (some ⟨none, some "inv-999"⟩) ⟨none, none, none⟩).2.state emptyAuthState
        (initiateLogin (fun _ => []) (fun _ => 0) (fun _ => 7)
          (some ⟨none, some "inv-999"⟩) ⟨none, none, none⟩).1
        ⟨none, none, none, none⟩).result.invitationToken = some (some "inv-999")) ∧
    ((handleCallback ⟨fun _ => none, fun _ => none, fun _ => none⟩
        ⟨true, ⟨"acc", "ref", none⟩, none⟩ "abc"
        (initiateLogin (fun _ => []) (fun _ => 0) (fun _ => 7)
          (some ⟨none, some "inv-999"⟩) ⟨none, none, none⟩).2.state emptyAuthState
        (initiateLogin (fun _ => []) (fun _ => 0) (fun _ => 7)
          (some ⟨none, some "inv-999"⟩) ⟨none, none, none⟩).1
        ⟨none, none, none, none⟩).session.invitation_token = none) ∧
    ((handleCallback ⟨fun _ => none, fun _ => none, fun _ => none⟩
        ⟨true, ⟨"acc", "ref", none⟩, none⟩ "abc"
        (initiateLogin (fun _ => []) (fun _ => 0) (fun _ => 7)
          none ⟨none, none, none⟩).2.state emptyAuthState
        (initiateLogin (fun _ => []) (fun _ => 0) (fun _ => 7)
          none ⟨none, none, none⟩).1
        ⟨none, none, none, none⟩).result.invitationToken = some none) := by
  have h := C8_invitation_carry_roundtrip (fun _ => []) (fun _ => 0) (fun _ => 7)
    ⟨fun _ => none, fun _ => none, fun _ => none⟩ ⟨true, ⟨"acc", "ref", none⟩, none⟩
    "abc" emptyAuthState ⟨none, none, none⟩ ⟨none, none, none, none⟩ "inv-999"
  exact ⟨(h.1 (by decide) rfl).2.1, (h.1 (by decide) rfl).2.2, (h.2.1 rfl rfl).2⟩

/-! ## C5: challenge derivation is pure base64url with a safe alphabet -/

lemma b64Char_mem (n : Nat) : b64Char n ∈ b64Alphabet := by
  unfold b64Char
  rcases h : b64Alphabet[n]? with _ | c
  · simp [List.getD, h]
    decide
  · have := List.getElem?_mem h
    simpa [List.getD, h] using this

lemma base64Body_subset (bs : List Nat) : ∀ c ∈ base64Body bs, c ∈ b64Alphabet := by
  induction bs using base64Body.induct with
  | case1 =>
    intro c hc
    cases hc
  | case2 b1 =>
    intro c hc
    unfold base64Body at hc
    rcases List.mem_cons.mp hc with h | h
    · rw [h]; exact b64Char_mem _
    · rcases List.mem_singleton.mp h with h
      rw [h]; exact b64Char_mem _
  | case3 b1 b2 =>
    intro c hc
    unfold base64Body at hc
    rcases List.mem_cons.mp hc with h | hc
    · rw [h]; exact b64Char_mem _
    rcases List.mem_cons.mp hc with h | hc
    · rw [h]; exact b64Char_mem _
    rcases List.mem_singleton.mp hc with h
    rw [h]; exact b64Char_mem _
  | case4 b1 b2 b3 rest ih =>
    intro c hc
    unfold base64Body at hc
    rcases List.mem_cons.mp hc with h | hc
    · rw [h]; exact b64Char_mem _
    rcases List.mem_cons.mp hc with h | hc
    · rw [h]; exact b64Char_mem _
    rcases List.mem_cons.mp hc with h | hc
    · rw [h]; exact b64Char_mem _
    rcases List.mem_cons.mp hc with h | hc
    · rw [h]; exact b64Char_mem _
    exact ih c hc

lemma urlSub_safe :
    ∀ c ∈ b64Alphabet,
      replaceSlash (replacePlus c) ≠ '+' ∧ replaceSlash (replacePlus c) ≠ '/' ∧
      replaceSlash (replacePlus c) ≠ '=' := by
  decide

lemma base64PadChars_replicate (n : Nat) :
    ∃ k, base64PadChars n = List.replicate k '=' := by
  unfold base64PadChars
  split
  · exact ⟨2, rfl⟩
  split
  · exact ⟨1, rfl⟩
  · exact ⟨0, rfl⟩

lemma dropWhile_replicate_eq_append (k : Nat) (l : List Char) :
    (List.replicate k '=' ++ l).dropWhile (fun c => c = '=') =
      l.dropWhile (fun c => c = '=') := by
  induction k with
  | zero => rfl
  | succ n ih => simp [List.replicate, List.dropWhile, ih]

lemma dropWhile_eq_self_of_no_eq (l : List Char) (h : ∀ c ∈ l, c ≠ '=') :
    l.dropWhile (fun c => c = '=') = l := by
  cases l with
  | nil => rfl
  | cons a t =>
    have ha : ¬(a = '=') := h a (by simp)
    simp [List.dropWhile, ha]

lemma stripTrailingEq_append_replicate (l : List Char) (k : Nat) (h : ∀ c ∈ l, c ≠ '=') :
    stripTrailingEq (l ++ List.replicate k '=') = l := by
  unfold stripTrailingEq
  rw [List.reverse_append, List.reverse_replicate, dropWhile_replicate_eq_append,
    dropWhile_eq_self_of_no_eq]
  · exact List.reverse_reverse l
  · intro c hc
    exact h c (List.mem_reverse.mp hc)

/-- C5: challenge derivation is a pure, deterministic function of the
verifier; the challenge is exactly the base64url (no padding) encoding of
the digest of the verifier's UTF-8 bytes; and no `'+'`, `'/'` or `'='`
character occurs in the challenge, for every digest function and verifier. -/
theorem C5_generateCodeChallenge_base64url (digest : List Nat → List Nat) (v : String) :
    generateCodeChallenge digest v = generateCodeChallenge digest v ∧
    generateCodeChallenge digest v = String.mk (base64UrlNoPadOfBytes (digest (utf8Bytes v))) ∧
    ∀ c ∈ (generateCodeChallenge digest v).data, c ≠ '+' ∧ c ≠ '/' ∧ c ≠ '=' := by
  refine ⟨rfl, rfl, ?_⟩
  intro c hc
  have hsplit : ((base64EncodeChars (digest (utf8Bytes v))).map replacePlus).map replaceSlash
      = (((base64Body (digest (utf8Bytes v))).map replacePlus).map replaceSlash)
        ++ (((base64PadChars ((digest (utf8Bytes v)).length % 3)).map replacePlus).map
              replaceSlash) := by
    unfold base64EncodeChars
    simp [List.map_append]
  obtain ⟨k, hk⟩ := base64PadChars_replicate ((digest (utf8Bytes v)).length % 3)
  have hpad : (((base64PadChars ((digest (utf8Bytes v)).length % 3)).map replacePlus).map
      replaceSlash) = List.replicate k '=' := by
    rw [hk]
    simp [List.map_replicate, replacePlus, replaceSlash]
  have hbodySafe : ∀ c' ∈ ((base64Body (digest (utf8Bytes v))).map replacePlus).map replaceSlash,
      c' ≠ '+' ∧ c' ≠ '/' ∧ c' ≠ '=' := by
    intro c' hcm
    rcases List.mem_map.mp hcm with ⟨c1, hc1, rfl⟩
    rcases List.mem_map.mp hc1 with ⟨c0, hc0, rfl⟩
    exact urlSub_safe c0 (base64Body_subset _ c0 hc0)
  have hstrip : stripTrailingEq
        (((base64EncodeChars (digest (utf8Bytes v))).map replacePlus).map replaceSlash)
      = ((base64Body (digest (utf8Bytes v))).map replacePlus).map replaceSlash := by
    rw [hsplit, hpad]
    exact stripTrailingEq_append_replicate _ k (fun c' h' => (hbodySafe c' h').2.2)
  have hcm : c ∈ stripTrailingEq
      (((base64EncodeChars (digest (utf8Bytes v))).map replacePlus).map replaceSlash) := hc
  rw [hstrip] at hcm
  exact hbodySafe c hcm

theorem C5_witness :
    generateCodeChallenge (fun _ => [251, 255, 62]) "x" =
      String.mk (base64UrlNoPadOfBytes ((fun _ => [251, 255, 62]) (utf8Bytes "x"))) ∧
    ('-' ≠ '+' ∧ '-' ≠ '/' ∧ '-' ≠ '=') :=
  ⟨(C5_generateCodeChallenge_base64url (fun _ => [251, 255, 62]) "x").2.1,
   (C5_generateCodeChallenge_base64url (fun _ => [251, 255, 62]) "x").2.2 '-' (by decide)⟩

end BillProMax
